import Mathlib

/-!
# Verification of the cropper facade component

A shallow embedding of `src/packages/cropper-1.x/lib/cropper.vue`, a Vue
single-file component wrapping the third-party `cropperjs` library, together
with proofs about the facade's observable behaviour.

The wrapped library is an opaque dependency: the facade only decides whether a
call reaches the underlying instance (and with which method name and argument
list), whether it short-circuits to an absent result, or whether it raises a
TypeError by dereferencing an absent instance.  The embedding therefore models
a forwarded call symbolically as the pair of the underlying method's name and
the fully evaluated argument list, and the underlying instance's own state only
by the one bit the facade can influence: whether `destroy()` has been invoked
on it.
-/

namespace CropperWrapper

/-- A primitive JavaScript value appearing inside an object argument.  JS
numbers carry no arithmetic in this component, so they are represented by `Rat`. -/
inductive JsPrim where
  | num (x : Rat)
  | str (s : String)
  | bool (b : Bool)
  | undef
  deriving DecidableEq, Repr

/-- A JavaScript value handed to an underlying method.  Every object the
facade ever forwards is one level deep (the `zoomTo` pivot, the data records
of the setters, the `getCroppedCanvas` options), so `obj` holds primitive
fields. -/
inductive JsVal where
  | num (x : Rat)
  | str (s : String)
  | bool (b : Bool)
  | undef
  | obj (fields : List (String × JsPrim))
  deriving DecidableEq, Repr

/-- A call that reaches the underlying cropper instance: the underlying
method's name and the argument list exactly as the source writes it. -/
structure UCall where
  method : String
  args : List JsVal
  deriving DecidableEq, Repr

/-- The state of the underlying cropper instance as far as the facade can
observe it: whether `destroy()` has been forwarded to it. -/
structure UInstance where
  destroyed : Bool
  deriving DecidableEq, Repr

/-- What a single facade method invocation does, seen from the host.
`forwarded c` means the call `c` reaches the underlying instance and its
return value is handed back to the host unchanged; `absent` means the
optional-chaining operator `?.` short-circuited (the host receives
`undefined` and nothing reaches the underlying library); `raised` means the
source dereferenced an absent instance through the non-null assertion `!`,
which at runtime is a TypeError. -/
inductive Outcome where
  | raised
  | absent
  | forwarded (call : UCall)
  deriving DecidableEq, Repr

/-- Whether the invocation raised a TypeError. -/
def Outcome.isRaised : Outcome → Bool
  | .raised => true
  | _ => false

/-- Whether the invocation short-circuited to an absent result. -/
def Outcome.isAbsent : Outcome → Bool
  | .absent => true
  | _ => false

/-- Whether the invocation reached the underlying instance. -/
def Outcome.isForwarded : Outcome → Bool
  | .forwarded _ => true
  | _ => false

/-- `cropper.value?.m(args)`: optional chaining, a no-op when the ref is empty. -/
def fwdOpt (c : Option UInstance) (m : String) (args : List JsVal) : Outcome :=
  match c with
  | none => .absent
  | some _ => .forwarded ⟨m, args⟩

/-- `cropper.value!.m(args)`: non-null assertion, a TypeError when the ref is
empty. -/
def fwdBang (c : Option UInstance) (m : String) (args : List JsVal) : Outcome :=
  match c with
  | none => .raised
  | some _ => .forwarded ⟨m, args⟩

namespace Facade

/-- `function reset() return cropper.value?.reset()`. -/
def reset (c : Option UInstance) : Outcome :=
  fwdOpt c "reset" []

/-- `function clear() return cropper.value?.clear()`. -/
def clear (c : Option UInstance) : Outcome :=
  fwdOpt c "clear" []

/-- `function initCrop() return cropper.value?.crop()`: the facade name
differs from the underlying method's name. -/
def initCrop (c : Option UInstance) : Outcome :=
  fwdOpt c "crop" []

/-- `function replace(url, onlyColorChanged = false)`: an omitted second
argument is filled with the source's default `false` before forwarding. -/
def replace (c : Option UInstance) (url : String) (onlyColorChanged : Option Bool) : Outcome :=
  fwdOpt c "replace" [.str url, .bool (onlyColorChanged.getD false)]

/-- `function enable() return cropper.value?.enable()`. -/
def enable (c : Option UInstance) : Outcome :=
  fwdOpt c "enable" []

/-- `function disable() return cropper.value?.disable()`. -/
def disable (c : Option UInstance) : Outcome :=
  fwdOpt c "disable" []

/-- `function destroy() return cropper.value?.destroy()`. -/
def destroy (c : Option UInstance) : Outcome :=
  fwdOpt c "destroy" []

/-- `function move(offsetX, offsetY?) return cropper.value!.move(offsetX, offsetY)`:
non-null assertion, and an omitted `offsetY` is forwarded as `undefined`. -/
def move (c : Option UInstance) (offsetX : Rat) (offsetY : Option Rat) : Outcome :=
  fwdBang c "move" [.num offsetX, match offsetY with | some y => .num y | none => .undef]

/-- `function moveTo(x, y = x)`: an omitted `y` is filled with `x` before
forwarding. -/
def moveTo (c : Option UInstance) (x : Rat) (y : Option Rat) : Outcome :=
  fwdOpt c "moveTo" [.num x, .num (y.getD x)]

/-- `function zoom(ratio) return cropper.value?.zoom(ratio)`. -/
def zoom (c : Option UInstance) (r : Rat) : Outcome :=
  fwdOpt c "zoom" [.num r]

/-- `function zoomTo(ratio, originalEvent?)`: an omitted pivot is forwarded as
`undefined`. -/
def zoomTo (c : Option UInstance) (r : Rat) (pivot : Option (Rat × Rat)) : Outcome :=
  fwdOpt c "zoomTo"
    [.num r,
     match pivot with
     | some p => .obj [("x", .num p.1), ("y", .num p.2)]
     | none => .undef]

/-- `function rotate(degree) return cropper.value?.rotate(degree)`. -/
def rotate (c : Option UInstance) (degree : Rat) : Outcome :=
  fwdOpt c "rotate" [.num degree]

/-- `function rotateTo(degree) return cropper.value?.rotateTo(degree)`. -/
def rotateTo (c : Option UInstance) (degree : Rat) : Outcome :=
  fwdOpt c "rotateTo" [.num degree]

/-- `function scaleX(scaleX) return cropper.value?.scaleX(scaleX)`. -/
def scaleX (c : Option UInstance) (sx : Rat) : Outcome :=
  fwdOpt c "scaleX" [.num sx]

/-- `function scaleY(scaleY) return cropper.value?.scaleY(scaleY)`. -/
def scaleY (c : Option UInstance) (sy : Rat) : Outcome :=
  fwdOpt c "scaleY" [.num sy]

/-- `function scale(scaleX, scaleY = scaleX)`: an omitted `scaleY` is filled
with `scaleX` before forwarding. -/
def scale (c : Option UInstance) (sx : Rat) (sy : Option Rat) : Outcome :=
  fwdOpt c "scale" [.num sx, .num (sy.getD sx)]

/-- `function getData(rounded = false)`: an omitted flag is filled with the
source's default `false` before forwarding. -/
def getData (c : Option UInstance) (rounded : Option Bool) : Outcome :=
  fwdOpt c "getData" [.bool (rounded.getD false)]

/-- `const setData = (data) => cropper.value!.setData(data)`: non-null
assertion. -/
def setData (c : Option UInstance) (data : List (String × JsPrim)) : Outcome :=
  fwdBang c "setData" [.obj data]

/-- `function getContainerData() return cropper.value?.getContainerData()`. -/
def getContainerData (c : Option UInstance) : Outcome :=
  fwdOpt c "getContainerData" []

/-- `function getImageData() return cropper.value?.getImageData()`. -/
def getImageData (c : Option UInstance) : Outcome :=
  fwdOpt c "getImageData" []

/-- `function getCanvasData() return cropper.value?.getCanvasData()`. -/
def getCanvasData (c : Option UInstance) : Outcome :=
  fwdOpt c "getCanvasData" []

/-- `const setCanvasData = (data) => cropper.value!.setCanvasData(data)`:
non-null assertion. -/
def setCanvasData (c : Option UInstance) (data : List (String × JsPrim)) : Outcome :=
  fwdBang c "setCanvasData" [.obj data]

/-- `function getCropBoxData() return cropper.value?.getCropBoxData()`. -/
def getCropBoxData (c : Option UInstance) : Outcome :=
  fwdOpt c "getCropBoxData" []

/-- `const setCropBoxData = (data) => cropper.value!.setCropBoxData(data)`:
non-null assertion. -/
def setCropBoxData (c : Option UInstance) (data : List (String × JsPrim)) : Outcome :=
  fwdBang c "setCropBoxData" [.obj data]

/-- `const getCroppedCanvas = (options = ...) => cropper.value!.getCroppedCanvas(options)`:
non-null assertion, and an omitted options record is filled with the source's
default, the empty object literal. -/
def getCroppedCanvas (c : Option UInstance) (options : Option (List (String × JsPrim))) : Outcome :=
  fwdBang c "getCroppedCanvas" [.obj (options.getD [])]

/-- `const setAspectRatio = (aspectRatio) => cropper.value!.setAspectRatio(aspectRatio)`:
non-null assertion. -/
def setAspectRatio (c : Option UInstance) (ar : Rat) : Outcome :=
  fwdBang c "setAspectRatio" [.num ar]

/-- `const setDragMode = (mode) => cropper.value!.setDragMode(mode)`: non-null
assertion. -/
def setDragMode (c : Option UInstance) (mode : String) : Outcome :=
  fwdBang c "setDragMode" [.str mode]

end Facade

/-- The names of the six constructor callbacks the facade registers with the
underlying library. -/
inductive CallbackName where
  | ready
  | cropstart
  | cropmove
  | cropend
  | crop
  | zoom
  deriving DecidableEq, Repr

/-- An event the component can emit through its emit declaration.  The
declaration lists `result` with a string payload and six payload-free names. -/
inductive Emitted where
  | result (value : String)
  | ready
  | start
  | move
  | end_
  | crop
  | zoom
  deriving DecidableEq, Repr

/-- Whether an emitted event is one of the six payload-free interaction
signals (everything except `result`). -/
def Emitted.isInteraction : Emitted → Bool
  | .result _ => false
  | _ => true

/-- A value in the options record handed to the underlying constructor: the
aspect-ratio number (or `undefined` when the prop is absent), or a callback
closure, recorded by the list of events one invocation of it emits. -/
inductive OptVal where
  | num (x : Rat)
  | undef
  | callback (emits : List Emitted)
  deriving DecidableEq, Repr

/-- Whether an options entry is a callback slot. -/
def OptVal.isCallback : OptVal → Bool
  | .callback _ => true
  | _ => false

/-- The options record the mount hook passes to `new CropperJs(imageRef.value, ...)`:
the `aspectRatio` prop and six callbacks, each emitting exactly one
payload-free signal per invocation. -/
def builtOptions (ar : Option Rat) : List (String × OptVal) :=
  [("aspectRatio", match ar with | some x => OptVal.num x | none => OptVal.undef),
   ("ready", OptVal.callback [Emitted.ready]),
   ("cropstart", OptVal.callback [Emitted.start]),
   ("cropmove", OptVal.callback [Emitted.move]),
   ("cropend", OptVal.callback [Emitted.end_]),
   ("crop", OptVal.callback [Emitted.crop]),
   ("zoom", OptVal.callback [Emitted.zoom])]

/-- The underlying option key each callback name stands for. -/
def cbKey : CallbackName → String
  | .ready => "ready"
  | .cropstart => "cropstart"
  | .cropmove => "cropmove"
  | .cropend => "cropend"
  | .crop => "crop"
  | .zoom => "zoom"

/-- The outward signal named in each callback closure the facade registers:
the emission table of the mount hook. -/
def outSignal : CallbackName → Emitted
  | .ready => .ready
  | .cropstart => .start
  | .cropmove => .move
  | .cropend => .end_
  | .crop => .crop
  | .zoom => .zoom

/-- The identifiers of the component's exposed methods. -/
inductive MethodId where
  | reset
  | clear
  | initCrop
  | replace
  | enable
  | disable
  | destroy
  | move
  | moveTo
  | zoom
  | zoomTo
  | rotate
  | rotateTo
  | scaleX
  | scaleY
  | scale
  | getData
  | getContainerData
  | getImageData
  | getCanvasData
  | getCropBoxData
  | setData
  | setCanvasData
  | setCropBoxData
  | getCroppedCanvas
  | setAspectRatio
  | setDragMode
  deriving DecidableEq, Repr

/-- The names listed in the component's expose declaration, in source order. -/
def exposedMethods : List String :=
  ["reset", "clear", "initCrop", "replace", "enable", "disable", "destroy",
   "move", "moveTo", "zoom", "zoomTo", "rotate", "rotateTo",
   "scaleX", "scaleY", "scale",
   "getData", "getContainerData", "getImageData", "getCanvasData",
   "getCropBoxData", "setData", "setCanvasData", "setCropBoxData",
   "getCroppedCanvas", "setAspectRatio", "setDragMode"]

/-- Modelled from the spec: the forwarding set enumerated by the spec's
method-forwarding contract, in the spec's order.  This is a second definition
written from the spec's words, kept separate so it can be compared with
`exposedMethods`, which is written from the source's expose declaration. -/
def specForwardingSet : List String :=
  ["reset", "clear", "crop", "replace", "enable", "disable", "destroy",
   "move", "moveTo", "zoom", "zoomTo", "rotate", "rotateTo",
   "scaleX", "scaleY", "scale",
   "getData", "getContainerData", "getImageData", "getCanvasData",
   "setCanvasData", "getCropBoxData", "setCropBoxData",
   "getCroppedCanvas", "setAspectRatio", "setDragMode"]

/-- The component-level state the facade owns: the `cropper` ref (empty until
the mount hook constructs the instance, and never cleared afterwards — the
source's `destroy` forwards to the instance but does not reset the ref), the
options record the instance was constructed with (absent before construction),
and a history count of constructor invocations. -/
structure FacadeState where
  cropper : Option UInstance
  opts : Option (List (String × OptVal))
  constructions : Nat
  deriving DecidableEq, Repr

/-- The state of a freshly created component: no instance, no options, no
construction has happened. -/
def initState : FacadeState := ⟨none, none, 0⟩

/-- The externally driven events of one component instance: the framework
running the mount hook (with or without the image element present), the host
calling an exposed method, and the underlying instance invoking one of the
callbacks it was constructed with. -/
inductive Event where
  | mountHook (imagePresent : Bool)
  | call (m : MethodId)
  | fire (cb : CallbackName)
  deriving DecidableEq, Repr

/-- What one invocation of a stored constructor callback emits: the emission
list recorded for that key in the options record, nothing when no instance
was ever constructed (no callback closure exists then). -/
def fireEmits (opts : Option (List (String × OptVal))) (cb : CallbackName) : List Emitted :=
  match opts with
  | none => []
  | some o =>
    match List.lookup (cbKey cb) o with
    | some (OptVal.callback es) => es
    | _ => []

/-- One step of the component.  The mount hook constructs the instance exactly
when the image element is present (the source guards on `imageRef.value`);
`destroy` forwards to the instance, marking it destroyed, but leaves the ref
populated; every other exposed method leaves the facade-owned state unchanged;
a callback firing emits its recorded signal and changes no state. -/
def step (ar : Option Rat) (s : FacadeState) : Event → FacadeState × List Emitted
  | .mountHook present =>
    if present then
      ({ cropper := some ⟨false⟩,
         opts := some (builtOptions ar),
         constructions := s.constructions + 1 }, [])
    else (s, [])
  | .call m =>
    if m = MethodId.destroy then
      ({ s with cropper := s.cropper.map fun _ => ⟨true⟩ }, [])
    else (s, [])
  | .fire cb =>
    (s, match s.cropper with
        | none => []
        | some _ => fireEmits s.opts cb)

/-- Run a list of events from a state, accumulating the emissions. -/
def run (ar : Option Rat) : FacadeState → List Event → FacadeState × List Emitted
  | s, [] => (s, [])
  | s, e :: es =>
    let r1 := step ar s e
    let r2 := run ar r1.1 es
    (r2.1, r1.2 ++ r2.2)

/-- The spec's three lifecycle phases of a facade instance. -/
inductive Phase where
  | unmounted
  | mounted
  | destroyed
  deriving DecidableEq, Repr

/-- The phase a facade state is in: no instance, a live instance, or a
destroyed instance. -/
def phase (s : FacadeState) : Phase :=
  match s.cropper with
  | none => .unmounted
  | some u => if u.destroyed then .destroyed else .mounted

/-- Whether an event is the framework's mount hook running. -/
def isMountHook : Event → Bool
  | .mountHook _ => true
  | _ => false

/-- Whether an event is a mount-hook run that actually constructs the
instance (the image element is present). -/
def isConstructingMount : Event → Bool
  | .mountHook true => true
  | _ => false

/-- The lifecycle transitions the spec's state machine admits: staying put,
mounting from unmounted, and destruction from mounted. -/
def allowedTransition (p q : Phase) : Prop :=
  p = q ∨ (p = .unmounted ∧ q = .mounted) ∨ (p = .mounted ∧ q = .destroyed)

/-- The invariant tying a state's stored options record to the component's
aspect-ratio prop: either nothing was constructed yet, or the record is the
one the mount hook builds. -/
def optsOK (ar : Option Rat) (s : FacadeState) : Prop :=
  s.opts = none ∨ s.opts = some (builtOptions ar)

/-- The first present value among two optional values. -/
def firstSome (a b : Option String) : Option String :=
  match a with
  | some v => some v
  | none => b

/-- The props of the component.  `src` and `alt` carry destructuring defaults
in the source, so they are received as possibly-absent here; `containerStyle`
and `imgStyle` are CSS style objects, modelled as key-value association lists
with distinct keys (a JS object literal cannot carry a duplicate key). -/
structure PropsIn where
  containerStyle : List (String × String)
  src : Option String
  alt : Option String
  imgStyle : List (String × String)
  crossorigin : Option String
  aspectRatio : Option Rat
  deriving DecidableEq, Repr

/-- The first binding of a key in a style object, read front to back. -/
def styleLookup (k : String) : List (String × String) → Option String
  | [] => none
  | kv :: rest => if kv.1 = k then some kv.2 else styleLookup k rest

/-- A single JS property write on an object: overwrite the existing binding in
place, or append a new binding at the end. -/
def setField : List (String × String) → String × String → List (String × String)
  | [], kv => [kv]
  | kv0 :: rest, kv =>
    if kv0.1 = kv.1 then (kv0.1, kv.2) :: rest else kv0 :: setField rest kv

/-- The JS object-spread expression that starts from `base` and writes the
entries of `upd` over it in order, later entries overriding earlier ones. -/
def objectSpread (base upd : List (String × String)) : List (String × String) :=
  upd.foldl setField base

/-- The image element the template renders. -/
structure RenderedImg where
  src : String
  alt : String
  style : List (String × String)
  crossorigin : Option String
  deriving DecidableEq, Repr

/-- The root the template renders: one styled container wrapping exactly one
image element. -/
structure RenderedRoot where
  style : List (String × String)
  img : RenderedImg
  deriving DecidableEq, Repr

/-- The template: a `div` styled by `containerStyle` around one `img` whose
`src` and `alt` carry the destructuring defaults, whose style is the spread
of `imgStyle` over a `max-width: 100%` entry, and whose `crossorigin` passes
through untouched. -/
def render (p : PropsIn) : RenderedRoot :=
  { style := p.containerStyle
  , img :=
    { src := p.src.getD ""
    , alt := p.alt.getD "image"
    , style := objectSpread [("max-width", "100%")] p.imgStyle
    , crossorigin := p.crossorigin } }

/-! ## Lemmas about the step model -/

theorem run_append_fst (ar : Option Rat) (l1 l2 : List Event) :
    ∀ s : FacadeState, (run ar s (l1 ++ l2)).1 = (run ar (run ar s l1).1 l2).1 := by
  induction l1 with
  | nil => intro s; rfl
  | cons e es ih => intro s; simp only [List.cons_append, run]; exact ih _

theorem run_constructions (ar : Option Rat) (es : List Event) :
    ∀ s : FacadeState,
      (run ar s es).1.constructions = s.constructions + es.countP isConstructingMount := by
  induction es with
  | nil => intro s; simp [run, List.countP_nil]
  | cons e es ih =>
    intro s
    cases e with
    | mountHook present =>
      cases present
      · simp [run, step, ih, List.countP_cons, isConstructingMount]
      · simp [run, step, ih, List.countP_cons, isConstructingMount]
        omega
    | call m =>
      by_cases h : m = MethodId.destroy <;>
        simp [run, step, h, ih, List.countP_cons, isConstructingMount]
    | fire cb =>
      simp [run, step, ih, List.countP_cons, isConstructingMount]

theorem step_frozen (ar : Option Rat) (s : FacadeState) (e : Event)
    (h : s.cropper.map (fun _ => (⟨true⟩ : UInstance)) = s.cropper)
    (he : isMountHook e = false) :
    (step ar s e).1 = s := by
  cases s with
  | mk c o k =>
    cases e with
    | mountHook p => simp [isMountHook] at he
    | call m =>
      by_cases hm : m = MethodId.destroy
      · subst hm
        simp only [step, if_pos rfl]
        simp only at h
        simp [h]
      · simp [step, hm]
    | fire cb => rfl

theorem run_frozen (ar : Option Rat) (es : List Event) :
    ∀ s : FacadeState,
      s.cropper.map (fun _ => (⟨true⟩ : UInstance)) = s.cropper →
      es.countP isMountHook = 0 →
      (run ar s es).1 = s := by
  induction es with
  | nil => intro s _ _; rfl
  | cons e es ih =>
    intro s h hc
    rw [List.countP_cons] at hc
    have he : isMountHook e = false := by
      cases hcount : isMountHook e
      · rfl
      · rw [hcount] at hc; simp at hc
    rw [he] at hc
    simp at hc
    have hs : (step ar s e).1 = s := step_frozen ar s e h he
    have hc' : es.countP isMountHook = 0 := by simpa using hc
    simp only [run]
    rw [hs]
    exact ih s h hc'

theorem step_allowed (ar : Option Rat) (s : FacadeState) (e : Event)
    (h : isMountHook e = false ∨ s.cropper = none) :
    allowedTransition (phase s) (phase (step ar s e).1) := by
  cases e with
  | mountHook p =>
    have hc : s.cropper = none := by
      rcases h with h | h
      · simp [isMountHook] at h
      · exact h
    cases p
    · left; rfl
    · right; left
      exact ⟨by simp [phase, hc], by simp [step, phase]⟩
  | call m =>
    by_cases hm : m = MethodId.destroy
    · subst hm
      cases hc : s.cropper with
      | none => left; simp [step, phase, hc]
      | some u =>
        cases hd : u.destroyed
        · right; right
          exact ⟨by simp [phase, hc, hd], by simp [step, phase, hc]⟩
        · left; simp [phase, step, hc, hd]
    · left; simp [step, hm]
  | fire cb => left; rfl

theorem outSignal_isInteraction (cb : CallbackName) :
    (outSignal cb).isInteraction = true := by
  cases cb <;> rfl

theorem fireEmits_builtOptions (ar : Option Rat) (cb : CallbackName) :
    fireEmits (some (builtOptions ar)) cb = [outSignal cb] := by
  cases ar <;> cases cb <;> rfl

theorem step_optsOK (ar : Option Rat) (s : FacadeState) (e : Event)
    (h : optsOK ar s) : optsOK ar (step ar s e).1 := by
  cases e with
  | mountHook p =>
    cases p
    · exact h
    · right; simp [step]
  | call m =>
    by_cases hm : m = MethodId.destroy <;>
      · simp only [optsOK, step, hm] at h ⊢
        simpa using h
  | fire cb => exact h

theorem step_emits_interaction (ar : Option Rat) (s : FacadeState) (e : Event)
    (h : optsOK ar s) : ((step ar s e).2.all Emitted.isInteraction) = true := by
  cases e with
  | mountHook p => cases p <;> simp [step]
  | call m => by_cases hm : m = MethodId.destroy <;> simp [step, hm]
  | fire cb =>
    cases hc : s.cropper with
    | none => simp [step, hc]
    | some u =>
      rcases h with h | h
      · simp [step, hc, fireEmits, h]
      · simp [step, hc, h, fireEmits_builtOptions, outSignal_isInteraction]

theorem run_emits_interaction (ar : Option Rat) (es : List Event) :
    ∀ s : FacadeState, optsOK ar s →
      ((run ar s es).2.all Emitted.isInteraction) = true := by
  induction es with
  | nil => intro s _; rfl
  | cons e es ih =>
    intro s h
    simp only [run, List.all_append, Bool.and_eq_true]
    exact ⟨step_emits_interaction ar s e h, ih _ (step_optsOK ar s e h)⟩

/-! ## Lemmas about style objects -/

theorem styleLookup_append (k : String) (l1 l2 : List (String × String)) :
    styleLookup k (l1 ++ l2) = firstSome (styleLookup k l1) (styleLookup k l2) := by
  induction l1 with
  | nil => rfl
  | cons kv rest ih =>
    by_cases h : kv.1 = k <;> simp [styleLookup, h, ih, firstSome]

theorem styleLookup_setField (l : List (String × String)) (kv : String × String) (k : String) :
    styleLookup k (setField l kv) = if kv.1 = k then some kv.2 else styleLookup k l := by
  induction l with
  | nil => rfl
  | cons kv0 rest ih =>
    by_cases h : kv0.1 = kv.1
    · simp only [setField, if_pos h, styleLookup, h]
      by_cases hk : kv.1 = k <;> simp [hk]
    · simp only [setField, if_neg h, styleLookup, ih]
      by_cases hk0 : kv0.1 = k
      · have hk : ¬ kv.1 = k := fun hh => h (hk0.trans hh.symm)
        simp [hk0, hk]
      · simp [hk0]

theorem styleLookup_objectSpread (k : String) (upd : List (String × String)) :
    ∀ base, styleLookup k (objectSpread base upd) =
      firstSome (styleLookup k upd.reverse) (styleLookup k base) := by
  induction upd with
  | nil => intro base; rfl
  | cons u us ih =>
    intro base
    have hstep : objectSpread base (u :: us) = objectSpread (setField base u) us := rfl
    rw [hstep, ih, List.reverse_cons, styleLookup_append, styleLookup_setField]
    cases hx : styleLookup k us.reverse <;> by_cases hu : u.1 = k <;>
      simp [firstSome, styleLookup, hu, hx]

theorem styleLookup_eq_none (k : String) (l : List (String × String))
    (h : k ∉ l.map Prod.fst) : styleLookup k l = none := by
  induction l with
  | nil => rfl
  | cons kv rest ih =>
    simp only [List.map_cons, List.mem_cons] at h
    push_neg at h
    have hk : ¬ kv.1 = k := fun hh => h.1 hh.symm
    simp [styleLookup, hk, ih h.2]

theorem styleLookup_reverse (k : String) (l : List (String × String))
    (h : (l.map Prod.fst).Nodup) : styleLookup k l.reverse = styleLookup k l := by
  induction l with
  | nil => rfl
  | cons kv rest ih =>
    simp only [List.map_cons, List.nodup_cons] at h
    rw [List.reverse_cons, styleLookup_append, ih h.2]
    by_cases hk : kv.1 = k
    · have hnone : styleLookup k rest = none :=
        styleLookup_eq_none k rest (by rw [← hk]; exact h.1)
      simp [styleLookup, hk, hnone, firstSome]
    · simp only [styleLookup, if_neg hk]
      cases styleLookup k rest <;> rfl

theorem countP_constructing_le (es : List Event) :
    es.countP isConstructingMount ≤ es.countP isMountHook := by
  induction es with
  | nil => simp
  | cons e es ih =>
    rw [List.countP_cons, List.countP_cons]
    have hle : (if isConstructingMount e then 1 else 0) ≤ (if isMountHook e then 1 else 0) := by
      cases e with
      | mountHook p => cases p <;> simp [isConstructingMount, isMountHook]
      | call m => simp [isConstructingMount, isMountHook]
      | fire cb => simp [isConstructingMount, isMountHook]
    omega

/-! ## The claims -/

/-- Claim C1, counterexample: the claim says every forwarding method called
while the underlying instance is absent is a no-op returning an absent result
and never raises; but `move`, called before mount, raises a TypeError — the
source dereferences the empty ref with the non-null assertion operator — and
does not return an absent result. -/
theorem c1_counterexample :
    Facade.move none 1 none = Outcome.raised ∧
    (Facade.move none 1 none).isAbsent = false :=
  ⟨rfl, rfl⟩

/-- Claim C1 (amended): while the underlying instance is absent, the twenty
forwarding methods written with optional chaining (reset, clear, initCrop,
replace, enable, disable, destroy, moveTo, zoom, zoomTo, rotate, rotateTo,
scaleX, scaleY, scale, getData, getContainerData, getImageData,
getCanvasData, getCropBoxData) are no-ops returning an absent result; the
seven written with a non-null assertion (move, setData, setCanvasData,
setCropBoxData, getCroppedCanvas, setAspectRatio, setDragMode) raise a
TypeError instead. -/
theorem c1_amended_absent_instance_behaviour :
    Facade.reset none = Outcome.absent ∧
    Facade.clear none = Outcome.absent ∧
    Facade.initCrop none = Outcome.absent ∧
    (∀ url oc, Facade.replace none url oc = Outcome.absent) ∧
    Facade.enable none = Outcome.absent ∧
    Facade.disable none = Outcome.absent ∧
    Facade.destroy none = Outcome.absent ∧
    (∀ x y, Facade.moveTo none x y = Outcome.absent) ∧
    (∀ r, Facade.zoom none r = Outcome.absent) ∧
    (∀ r p, Facade.zoomTo none r p = Outcome.absent) ∧
    (∀ d, Facade.rotate none d = Outcome.absent) ∧
    (∀ d, Facade.rotateTo none d = Outcome.absent) ∧
    (∀ sx, Facade.scaleX none sx = Outcome.absent) ∧
    (∀ sy, Facade.scaleY none sy = Outcome.absent) ∧
    (∀ sx sy, Facade.scale none sx sy = Outcome.absent) ∧
    (∀ rd, Facade.getData none rd = Outcome.absent) ∧
    Facade.getContainerData none = Outcome.absent ∧
    Facade.getImageData none = Outcome.absent ∧
    Facade.getCanvasData none = Outcome.absent ∧
    Facade.getCropBoxData none = Outcome.absent ∧
    (∀ ox oy, Facade.move none ox oy = Outcome.raised) ∧
    (∀ d, Facade.setData none d = Outcome.raised) ∧
    (∀ d, Facade.setCanvasData none d = Outcome.raised) ∧
    (∀ d, Facade.setCropBoxData none d = Outcome.raised) ∧
    (∀ o, Facade.getCroppedCanvas none o = Outcome.raised) ∧
    (∀ a, Facade.setAspectRatio none a = Outcome.raised) ∧
    (∀ mo, Facade.setDragMode none mo = Outcome.raised) :=
  ⟨rfl, rfl, rfl, fun _ _ => rfl, rfl, rfl, rfl, fun _ _ => rfl, fun _ => rfl,
    fun _ _ => rfl, fun _ => rfl, fun _ => rfl, fun _ => rfl, fun _ => rfl, fun _ _ => rfl,
    fun _ => rfl, rfl, rfl, rfl, rfl, fun _ _ => rfl, fun _ => rfl, fun _ => rfl,
    fun _ => rfl, fun _ => rfl, fun _ => rfl, fun _ => rfl⟩

/-- Claim C2, counterexample: the claim says every forwarding call made after
`destroy()` returns an absent result, with no call reaching the underlying
instance; but after mount followed by destroy, `getData` does not return an
absent result — the ref is never cleared, so the call is still forwarded to
the retained (destroyed) underlying instance. -/
theorem c2_counterexample :
    (Facade.getData (run none initState
        [Event.mountHook true, Event.call MethodId.destroy]).1.cropper none).isAbsent
      = false ∧
    Facade.getData (run none initState
        [Event.mountHook true, Event.call MethodId.destroy]).1.cropper none
      = Outcome.forwarded ⟨"getData", [JsVal.bool false]⟩ :=
  ⟨rfl, rfl⟩

/-- Claim C2 (amended): after `destroy()` on a mounted facade the ref retains
the now-destroyed underlying instance, so subsequent forwarding calls still
reach it (their results are whatever the destroyed instance returns, not an
absent result); the facade does, however, never construct a new instance
without a new mount — over any continuation free of mount hooks the state
stays exactly the post-destroy state and the construction count stays one. -/
theorem c2_amended_retained_instance (ar : Option Rat) (es : List Event)
    (h : es.countP isMountHook = 0) :
    (run ar initState (Event.mountHook true :: Event.call MethodId.destroy :: es)).1.cropper
      = some ⟨true⟩ ∧
    (run ar initState
        (Event.mountHook true :: Event.call MethodId.destroy :: es)).1.constructions = 1 ∧
    (∀ rd, Facade.getData
        (run ar initState (Event.mountHook true :: Event.call MethodId.destroy :: es)).1.cropper rd
      = Outcome.forwarded ⟨"getData", [JsVal.bool (rd.getD false)]⟩) := by
  have hrun : (run ar initState (Event.mountHook true :: Event.call MethodId.destroy :: es)).1
      = (⟨some ⟨true⟩, some (builtOptions ar), 1⟩ : FacadeState) := by
    have h2 : (run ar initState (Event.mountHook true :: Event.call MethodId.destroy :: es)).1
        = (run ar (⟨some ⟨true⟩, some (builtOptions ar), 1⟩ : FacadeState) es).1 := by
      simp only [run, step, initState]
      rfl
    rw [h2]
    exact run_frozen ar es _ rfl h
  exact ⟨by rw [hrun], by rw [hrun], fun rd => by rw [hrun]; rfl⟩

/-- Claim C2 witness: the amended theorem applied to the empty continuation
with no aspect-ratio prop. -/
theorem c2_witness :
    (run none initState [Event.mountHook true, Event.call MethodId.destroy]).1.cropper
      = some ⟨true⟩ :=
  (c2_amended_retained_instance none [] rfl).1

/-- Claim C3: the options record built at construction carries exactly the six
callback slots ready, cropstart, cropmove, cropend, crop and zoom; the mount
hook hands exactly that record to the constructor; each firing of a stored
callback emits exactly the one corresponding outward signal
(ready to ready, cropstart to start, cropmove to move, cropend to end, crop
to crop, zoom to zoom); and every such signal is payload-free (none is the
`result` event, the only emission carrying a payload). -/
theorem c3_event_subscription_and_reemission :
    (∀ ar, (builtOptions ar).filter (fun p => OptVal.isCallback p.2)
      = [("ready", OptVal.callback [Emitted.ready]),
         ("cropstart", OptVal.callback [Emitted.start]),
         ("cropmove", OptVal.callback [Emitted.move]),
         ("cropend", OptVal.callback [Emitted.end_]),
         ("crop", OptVal.callback [Emitted.crop]),
         ("zoom", OptVal.callback [Emitted.zoom])]) ∧
    (∀ ar : Option Rat, ∀ s : FacadeState,
      (step ar s (Event.mountHook true)).1.opts = some (builtOptions ar)) ∧
    (∀ ar : Option Rat, ∀ u : UInstance, ∀ o : Option Rat, ∀ n : Nat, ∀ cb : CallbackName,
      (step ar ⟨some u, some (builtOptions o), n⟩ (Event.fire cb)).2 = [outSignal cb]) ∧
    (∀ cb, (outSignal cb).isInteraction = true) := by
  refine ⟨fun ar => ?_, fun ar s => rfl, fun ar u o n cb => ?_, outSignal_isInteraction⟩
  · cases ar <;> rfl
  · simp [step, fireEmits_builtOptions]

/-- Claim C4, counterexample: the claim says an argument omitted by the caller
is omitted in the forwarded call; but `replace` called with one argument on a
live instance forwards two arguments — the source fills the omitted
`onlyColorChanged` with its default `false` — so the forwarded argument list
is not the caller's one-argument list. -/
theorem c4_counterexample :
    Facade.replace (some ⟨false⟩) "u" none
      = Outcome.forwarded ⟨"replace", [JsVal.str "u", JsVal.bool false]⟩ ∧
    ([JsVal.str "u", JsVal.bool false] = [JsVal.str "u"]) = False :=
  ⟨rfl, eq_false (by decide)⟩

/-- Claim C4 (amended): with a live underlying instance every exposed method
is a pass-through whose return value is handed back unchanged, forwarding to
the underlying method of the same name except `initCrop`, which forwards to
`crop`; supplied arguments are forwarded in order and unchanged, while an
omitted optional argument is not omitted downstream: `replace` and `getData`
fill in `false`, `moveTo` fills in its first argument, `scale` fills in its
first argument, `getCroppedCanvas` fills in the empty object, and `move` and
`zoomTo` forward the omitted argument as `undefined`. -/
theorem c4_amended_pass_through (u : UInstance) :
    Facade.reset (some u) = Outcome.forwarded ⟨"reset", []⟩ ∧
    Facade.clear (some u) = Outcome.forwarded ⟨"clear", []⟩ ∧
    Facade.initCrop (some u) = Outcome.forwarded ⟨"crop", []⟩ ∧
    (∀ url oc, Facade.replace (some u) url oc
      = Outcome.forwarded ⟨"replace", [JsVal.str url, JsVal.bool (oc.getD false)]⟩) ∧
    Facade.enable (some u) = Outcome.forwarded ⟨"enable", []⟩ ∧
    Facade.disable (some u) = Outcome.forwarded ⟨"disable", []⟩ ∧
    Facade.destroy (some u) = Outcome.forwarded ⟨"destroy", []⟩ ∧
    (∀ ox, Facade.move (some u) ox none
      = Outcome.forwarded ⟨"move", [JsVal.num ox, JsVal.undef]⟩) ∧
    (∀ ox oy, Facade.move (some u) ox (some oy)
      = Outcome.forwarded ⟨"move", [JsVal.num ox, JsVal.num oy]⟩) ∧
    (∀ x y, Facade.moveTo (some u) x y
      = Outcome.forwarded ⟨"moveTo", [JsVal.num x, JsVal.num (y.getD x)]⟩) ∧
    (∀ r, Facade.zoom (some u) r = Outcome.forwarded ⟨"zoom", [JsVal.num r]⟩) ∧
    (∀ r, Facade.zoomTo (some u) r none
      = Outcome.forwarded ⟨"zoomTo", [JsVal.num r, JsVal.undef]⟩) ∧
    (∀ r px py, Facade.zoomTo (some u) r (some (px, py))
      = Outcome.forwarded
          ⟨"zoomTo", [JsVal.num r, JsVal.obj [("x", JsPrim.num px), ("y", JsPrim.num py)]]⟩) ∧
    (∀ d, Facade.rotate (some u) d = Outcome.forwarded ⟨"rotate", [JsVal.num d]⟩) ∧
    (∀ d, Facade.rotateTo (some u) d = Outcome.forwarded ⟨"rotateTo", [JsVal.num d]⟩) ∧
    (∀ sx, Facade.scaleX (some u) sx = Outcome.forwarded ⟨"scaleX", [JsVal.num sx]⟩) ∧
    (∀ sy, Facade.scaleY (some u) sy = Outcome.forwarded ⟨"scaleY", [JsVal.num sy]⟩) ∧
    (∀ sx sy, Facade.scale (some u) sx sy
      = Outcome.forwarded ⟨"scale", [JsVal.num sx, JsVal.num (sy.getD sx)]⟩) ∧
    (∀ rd, Facade.getData (some u) rd
      = Outcome.forwarded ⟨"getData", [JsVal.bool (rd.getD false)]⟩) ∧
    (∀ d, Facade.setData (some u) d = Outcome.forwarded ⟨"setData", [JsVal.obj d]⟩) ∧
    Facade.getContainerData (some u) = Outcome.forwarded ⟨"getContainerData", []⟩ ∧
    Facade.getImageData (some u) = Outcome.forwarded ⟨"getImageData", []⟩ ∧
    Facade.getCanvasData (some u) = Outcome.forwarded ⟨"getCanvasData", []⟩ ∧
    (∀ d, Facade.setCanvasData (some u) d
      = Outcome.forwarded ⟨"setCanvasData", [JsVal.obj d]⟩) ∧
    Facade.getCropBoxData (some u) = Outcome.forwarded ⟨"getCropBoxData", []⟩ ∧
    (∀ d, Facade.setCropBoxData (some u) d
      = Outcome.forwarded ⟨"setCropBoxData", [JsVal.obj d]⟩) ∧
    (∀ o, Facade.getCroppedCanvas (some u) o
      = Outcome.forwarded ⟨"getCroppedCanvas", [JsVal.obj (o.getD [])]⟩) ∧
    (∀ a, Facade.setAspectRatio (some u) a
      = Outcome.forwarded ⟨"setAspectRatio", [JsVal.num a]⟩) ∧
    (∀ mo, Facade.setDragMode (some u) mo
      = Outcome.forwarded ⟨"setDragMode", [JsVal.str mo]⟩) :=
  ⟨rfl, rfl, rfl, fun _ _ => rfl, rfl, rfl, rfl, fun _ => rfl, fun _ _ => rfl,
    fun _ _ => rfl, fun _ => rfl, fun _ => rfl, fun _ _ _ => rfl, fun _ => rfl, fun _ => rfl,
    fun _ => rfl, fun _ => rfl, fun _ _ => rfl, fun _ => rfl, fun _ => rfl, rfl, rfl, rfl,
    fun _ => rfl, rfl, fun _ => rfl, fun _ => rfl, fun _ => rfl, fun _ => rfl⟩

/-- Claim C5, counterexample: the claim says the record passed to the
underlying constructor carries exactly the aspectRatio option and five
lifecycle callbacks; but the record carries six callback slots, not five. -/
theorem c5_counterexample :
    (((builtOptions none).filter (fun p => OptVal.isCallback p.2)).length = 5) = False ∧
    ((builtOptions none).filter (fun p => OptVal.isCallback p.2)).length = 6 :=
  ⟨eq_false (by decide), rfl⟩

/-- Claim C5 (amended): the options record passed to the underlying
constructor carries exactly the keys aspectRatio, ready, cropstart, cropmove,
cropend, crop and zoom — the aspectRatio option plus six lifecycle callback
slots and nothing else. -/
theorem c5_amended_constructor_options (ar : Option Rat) :
    (builtOptions ar).map Prod.fst
      = ["aspectRatio", "ready", "cropstart", "cropmove", "cropend", "crop", "zoom"] ∧
    ((builtOptions ar).filter (fun p => OptVal.isCallback p.2)).length = 6 ∧
    (∀ kv ∈ builtOptions ar, kv.1 = "aspectRatio" ∨ OptVal.isCallback kv.2 = true) := by
  refine ⟨?_, ?_, ?_⟩
  · cases ar <;> rfl
  · cases ar <;> rfl
  · intro kv hkv
    cases ar <;> simp [builtOptions] at hkv <;>
      rcases hkv with h|h|h|h|h|h|h <;> simp [h, OptVal.isCallback]

/-- Claim C6, counterexample: the claim says the facade exposes, under the
same names, the spec's forwarding set and nothing outside it; but the spec
set's name `crop` is not among the exposed names (the facade exposes the
operation as `initCrop`), and the exposed name `setData` lies outside the
spec set. -/
theorem c6_counterexample :
    "crop" ∈ specForwardingSet ∧
    ("crop" ∈ exposedMethods) = False ∧
    "setData" ∈ exposedMethods ∧
    ("setData" ∈ specForwardingSet) = False :=
  ⟨by decide, eq_false (by decide), by decide, eq_false (by decide)⟩

/-- Claim C6 (amended): the exposed names are exactly the spec's forwarding
set with `crop` renamed to `initCrop`, plus additionally `setData` — as sets
of names (the theorem states a permutation). -/
theorem c6_amended_exposed_set :
    exposedMethods.Perm
      ("initCrop" :: "setData" :: specForwardingSet.filter (fun n => n != "crop")) := by
  decide

/-- Claim C7: over every execution in which the framework runs the mount hook
at most once (Vue runs a component instance's hook once), the underlying
instance is constructed exactly as many times as the hook ran with the image
element present — hence at most once; no event other than a mount-hook run
changes the construction count; a hook run without the image element changes
nothing; and every step of the execution takes the facade phase along an
admitted transition only — staying put, unmounted to mounted, or mounted to
destroyed — so in particular no step leaves the destroyed phase. -/
theorem c7_lifecycle (ar : Option Rat) (es : List Event)
    (h : es.countP isMountHook ≤ 1) :
    (run ar initState es).1.constructions = es.countP isConstructingMount ∧
    (run ar initState es).1.constructions ≤ 1 ∧
    (∀ s : FacadeState, ∀ e : Event, isMountHook e = false →
      (step ar s e).1.constructions = s.constructions) ∧
    (∀ s : FacadeState, (step ar s (Event.mountHook false)).1 = s) ∧
    (∀ p e q, es = p ++ e :: q →
      allowedTransition (phase (run ar initState p).1)
        (phase (run ar initState (p ++ [e])).1)) := by
  have hcount : (run ar initState es).1.constructions = es.countP isConstructingMount := by
    simpa [initState] using run_constructions ar es initState
  refine ⟨hcount, ?_, ?_, fun s => rfl, ?_⟩
  · rw [hcount]
    exact le_trans (countP_constructing_le es) h
  · intro s e he
    cases e with
    | mountHook p => simp [isMountHook] at he
    | call m => by_cases hm : m = MethodId.destroy <;> simp [step, hm]
    | fire cb => rfl
  · intro p e q hsplit
    have hph : (run ar initState (p ++ [e])).1 = (step ar (run ar initState p).1 e).1 := by
      rw [run_append_fst]
      rfl
    rw [hph]
    by_cases hme : isMountHook e = false
    · exact step_allowed ar _ e (Or.inl hme)
    · have hme' : isMountHook e = true := by
        revert hme; cases isMountHook e <;> simp
      have hp0 : p.countP isMountHook = 0 := by
        subst hsplit
        simp [List.countP_append, List.countP_cons, hme'] at h
        omega
      have hpinit : (run ar initState p).1 = initState := run_frozen ar p initState rfl hp0
      exact step_allowed ar _ e (Or.inr (by rw [hpinit]; rfl))

/-- Claim C7 witness: the lifecycle theorem applied to the concrete run that
mounts with the image present and then destroys. -/
theorem c7_witness :
    (run none initState [Event.mountHook true, Event.call MethodId.destroy]).1.constructions
      ≤ 1 :=
  (c7_lifecycle none [Event.mountHook true, Event.call MethodId.destroy] (by decide)).2.1

/-- Claim C8: `destroy` never raises at the facade level (it is written with
optional chaining, for every ref state); after the first destroy on a mounted
facade the phase is destroyed; and a destroy on a facade already in the
destroyed phase leaves the state exactly unchanged — the second of two
consecutive destroys changes nothing the first had not established. -/
theorem c8_double_destroy :
    (∀ c : Option UInstance, (Facade.destroy c).isRaised = false) ∧
    (∀ ar : Option Rat, ∀ o : Option (List (String × OptVal)), ∀ n : Nat,
      phase (step ar ⟨some ⟨false⟩, o, n⟩ (Event.call MethodId.destroy)).1 = Phase.destroyed) ∧
    (∀ ar : Option Rat, ∀ s : FacadeState, phase s = Phase.destroyed →
      (step ar s (Event.call MethodId.destroy)).1 = s) := by
  refine ⟨fun c => ?_, fun ar o n => rfl, fun ar s hs => ?_⟩
  · cases c <;> rfl
  · cases s with
    | mk c o k =>
      cases c with
      | none => simp [phase] at hs
      | some u =>
        cases u with
        | mk d =>
          cases d
          · simp [phase] at hs
          · simp [step]

/-- Claim C9, counterexample: the claim says the image element's style is the
imgStyle prop passed through unmodified; but rendering with an empty imgStyle
yields an image style carrying the template's own `max-width: 100%` entry,
not the empty style that was passed. -/
theorem c9_counterexample :
    (render ⟨[], some "s", some "a", [], none, none⟩).img.style
      = [("max-width", "100%")] ∧
    ((render ⟨[], some "s", some "a", [], none, none⟩).img.style
      = (⟨[], some "s", some "a", [], none, none⟩ : PropsIn).imgStyle) = False :=
  ⟨rfl, eq_false (by decide)⟩

/-- Claim C9 (amended): the rendered output is a single container element
styled exactly by the containerStyle prop, wrapping exactly one image element
whose src, alt and crossorigin are the corresponding props passed through
unmodified with no validation; the image's style is the imgStyle prop spread
over the template's own `max-width: 100%` default — every imgStyle entry
passes through unchanged, and max-width reads as imgStyle's value when
imgStyle binds it and as 100% otherwise. -/
theorem c9_amended_render (cs is : List (String × String)) (sv av : String)
    (co : Option String) (ar : Option Rat) (k2 : String)
    (h : (is.map Prod.fst).Nodup) :
    (render ⟨cs, some sv, some av, is, co, ar⟩).style = cs ∧
    (render ⟨cs, some sv, some av, is, co, ar⟩).img.src = sv ∧
    (render ⟨cs, some sv, some av, is, co, ar⟩).img.alt = av ∧
    (render ⟨cs, some sv, some av, is, co, ar⟩).img.crossorigin = co ∧
    styleLookup "max-width" (render ⟨cs, some sv, some av, is, co, ar⟩).img.style
      = some ((styleLookup "max-width" is).getD "100%") ∧
    ((k2 = "max-width") = False →
      styleLookup k2 (render ⟨cs, some sv, some av, is, co, ar⟩).img.style
        = styleLookup k2 is) := by
  refine ⟨rfl, rfl, rfl, rfl, ?_, ?_⟩
  · show styleLookup "max-width" (objectSpread [("max-width", "100%")] is)
      = some ((styleLookup "max-width" is).getD "100%")
    rw [styleLookup_objectSpread, styleLookup_reverse _ _ h]
    cases styleLookup "max-width" is <;> simp [firstSome, styleLookup]
  · intro hk2
    have hne : ¬ ("max-width" = k2) := fun hh => (hk2 ▸ hh.symm : False)
    show styleLookup k2 (objectSpread [("max-width", "100%")] is) = styleLookup k2 is
    rw [styleLookup_objectSpread, styleLookup_reverse _ _ h]
    simp only [styleLookup, if_neg hne]
    cases styleLookup k2 is <;> rfl

/-- Claim C9 witness: the amended render theorem at a concrete prop record,
reading the max-width entry of the rendered image style. -/
theorem c9_witness :
    styleLookup "max-width"
      (render ⟨[("color", "red")], some "s", some "a", [("border", "1px")], none, none⟩).img.style
      = some ((styleLookup "max-width" [("border", "1px")]).getD "100%") :=
  (c9_amended_render [("color", "red")] [("border", "1px")] "s" "a" none none "border"
    (by decide)).2.2.2.2.1

/-- Claim C10: although the emit declaration includes a `result` event with a
string payload, no run of the component ever emits it — every event a run
emits is one of the six payload-free interaction signals. -/
theorem c10_no_result_emission (ar : Option Rat) (es : List Event) :
    ((run ar initState es).2.all Emitted.isInteraction) = true :=
  run_emits_interaction ar es initState (Or.inl rfl)

end CropperWrapper
